import Mathlib

/-!
Verification of the django-tsunami change-tracking engine against its
natural-language specification.

The Python source under `src/tsunami/` is shallowly embedded below:

* `find_aggregates` (src/tsunami/aggregates.py, identical to
  `_find_aggregates` in src/tsunami/models.py) — the recursive aggregate
  walk, embedded with an explicit recursion-depth budget (fuel) so that the
  Python function's unbounded recursion is observable: a result of `none`
  for every fuel value means the Python code exceeds any recursion bound
  (Python raises `RecursionError`).
* `is_tracked` (src/tsunami/settings.py, `TsunamiSettings.default_is_tracked`).
* `instance_as_dict`, `instance_diff`, `post_save_receiver`,
  `post_delete_receiver`, `m2m_changed_receiver`, `post_init_receiver`,
  `mutable_signal_receiver`, `suspend`, `mute_signals_for`
  (src/tsunami/tracking.py).
* The declared default ordering of `Event` (src/tsunami/models.py).

Entities/models are identified by `Nat`; serialized field values by `Int`;
a serialized snapshot (a Python dict of field name to value) by an
association list `List (String × Int)` in insertion order.
-/

namespace Tsunami

/-! ## Aggregate resolution (src/tsunami/aggregates.py, find_aggregates) -/

/-- The `get_event_aggregates` hook table: `g e = none` models an entity
without the hook (`hasattr` false); `g e = some l` models the hook
returning the list `l` of entities. -/
def AggHooks : Type := Nat → Option (List Nat)

/-- Embedding of `find_aggregates(instance)` with an explicit recursion
budget.  The Python code is
`aggregates = {instance}; for a in instance.get_event_aggregates():
aggregates.update(find_aggregates(a))` with no visited set, so each
recursive call is given one unit less fuel; `none` means the budget was
exhausted, i.e. the Python recursion would exceed that depth. -/
def find_aggregates (g : AggHooks) : Nat → Nat → Option (Finset Nat)
  | 0, _ => none
  | fuel + 1, e =>
    match g e with
    | none => some {e}
    | some children =>
      children.foldl
        (fun acc a =>
          match acc, find_aggregates g fuel a with
          | some s, some t => some (s ∪ t)
          | _, _ => none)
        (some {e})

/-- The two-entity cyclic aggregate graph of the claim: entity 0 claims
entity 1 as its aggregate and entity 1 claims entity 0. -/
def cycleHooks : AggHooks := fun n =>
  if n = 0 then some [1] else if n = 1 then some [0] else none

/-- Sanity: an entity with no `get_event_aggregates` hook resolves to the
singleton set containing itself (here `cycleHooks 2 = none`). -/
theorem find_aggregates_no_hook :
    find_aggregates cycleHooks 1 2 = some {2} := rfl

/-- Claim C1: FALSE of the code.  On the two-element cycle the recursive walk in
`find_aggregates` never terminates: no recursion budget suffices (the
Python function has no visited set and raises `RecursionError`), so it
does not return `{0, 1}`.  The claim — and the spec's cycle policy — say
it must terminate on cycles. -/
theorem C1_find_aggregates_cycle_diverges :
    ∀ fuel : Nat,
      find_aggregates cycleHooks fuel 0 = none ∧
      find_aggregates cycleHooks fuel 1 = none := by
  intro fuel
  induction fuel with
  | zero => exact ⟨rfl, rfl⟩
  | succ n ih =>
    constructor
    · show find_aggregates cycleHooks (n + 1) 0 = none
      have h0 : cycleHooks 0 = some [1] := rfl
      simp only [find_aggregates, h0, List.foldl, ih.2]
    · show find_aggregates cycleHooks (n + 1) 1 = none
      have h1 : cycleHooks 1 = some [0] := rfl
      simp only [find_aggregates, h1, List.foldl, ih.1]

/-! ## Tracking eligibility (src/tsunami/settings.py) -/

/-- A model's `_meta` as consulted by the predicate: `app_label` is the
owning application's label, `label` the `app_label.ModelName` label. -/
structure ModelMeta where
  app_label : String
  label : String
deriving DecidableEq

/-- `TsunamiSettings.DEFAULT_BLACKLISTED_APPS`. -/
def DEFAULT_BLACKLISTED_APPS : List String :=
  ["migrations", "contenttypes", "sessions", "admin", "tsunami"]

/-- `TsunamiSettings.DEFAULT_BLACKLISTED_MODELS`. -/
def DEFAULT_BLACKLISTED_MODELS : List String := ["auth.Permission"]

/-- The configurable settings.  `none` for a whitelist models the Python
`None` default (no whitelist configured); `some l` a configured list. -/
structure TsunamiSettings where
  BLACKLISTED_APPS : List String
  WHITELISTED_APPS : Option (List String)
  BLACKLISTED_MODELS : List String
  WHITELISTED_MODELS : Option (List String)

/-- Embedding of the `is_tracked` closure returned by
`TsunamiSettings.default_is_tracked`.  `x.getD []` renders Python's
`(x or [])` (membership in `None`-or-empty and in `[]` agree), and the
final line renders `WHITELISTED_MODELS is None and WHITELISTED_APPS is
None`. -/
def is_tracked (s : TsunamiSettings) (opts : ModelMeta) : Bool :=
  if opts.app_label ∈ DEFAULT_BLACKLISTED_APPS then false
  else if opts.label ∈ DEFAULT_BLACKLISTED_MODELS then false
  else if opts.label ∈ s.BLACKLISTED_MODELS then false
  else if opts.label ∈ s.WHITELISTED_MODELS.getD [] then true
  else if opts.app_label ∈ s.BLACKLISTED_APPS then false
  else if opts.app_label ∈ s.WHITELISTED_APPS.getD [] then true
  else s.WHITELISTED_MODELS.isNone && s.WHITELISTED_APPS.isNone

/-- Claim C3: the precedence scenario of the claim.  `t0` is default-blacklisted,
`t1` configured-model-blacklisted, `t2` configured-model-whitelisted (and
hit by no blacklist), `t3` model-whitelisted while its app (namespace) is
configured-blacklisted, `t4` untouched by every list while an app
whitelist is active that does not contain its app; tracked are exactly
`t2` and `t3`.  For an untouched type `t5` under settings `s2`, the result
is true iff neither whitelist is configured. -/
theorem C3_is_tracked_precedence
    (s : TsunamiSettings) (t0 t1 t2 t3 t4 : ModelMeta)
    (s2 : TsunamiSettings) (t5 : ModelMeta)
    (h0 : t0.app_label ∈ DEFAULT_BLACKLISTED_APPS ∨
          t0.label ∈ DEFAULT_BLACKLISTED_MODELS)
    (h1 : t1.label ∈ s.BLACKLISTED_MODELS)
    (h2a : t2.app_label ∉ DEFAULT_BLACKLISTED_APPS)
    (h2b : t2.label ∉ DEFAULT_BLACKLISTED_MODELS)
    (h2c : t2.label ∉ s.BLACKLISTED_MODELS)
    (h2d : t2.label ∈ s.WHITELISTED_MODELS.getD [])
    (h3a : t3.app_label ∉ DEFAULT_BLACKLISTED_APPS)
    (h3b : t3.label ∉ DEFAULT_BLACKLISTED_MODELS)
    (h3c : t3.label ∉ s.BLACKLISTED_MODELS)
    (h3d : t3.label ∈ s.WHITELISTED_MODELS.getD [])
    (h3e : t3.app_label ∈ s.BLACKLISTED_APPS)
    (h4a : t4.app_label ∉ DEFAULT_BLACKLISTED_APPS)
    (h4b : t4.label ∉ DEFAULT_BLACKLISTED_MODELS)
    (h4c : t4.label ∉ s.BLACKLISTED_MODELS)
    (h4d : t4.label ∉ s.WHITELISTED_MODELS.getD [])
    (h4e : t4.app_label ∉ s.BLACKLISTED_APPS)
    (h4f : t4.app_label ∉ s.WHITELISTED_APPS.getD [])
    (h4g : s.WHITELISTED_APPS.isSome)
    (h5a : t5.app_label ∉ DEFAULT_BLACKLISTED_APPS)
    (h5b : t5.label ∉ DEFAULT_BLACKLISTED_MODELS)
    (h5c : t5.label ∉ s2.BLACKLISTED_MODELS)
    (h5d : t5.label ∉ s2.WHITELISTED_MODELS.getD [])
    (h5e : t5.app_label ∉ s2.BLACKLISTED_APPS)
    (h5f : t5.app_label ∉ s2.WHITELISTED_APPS.getD []) :
    is_tracked s t0 = false ∧
    is_tracked s t1 = false ∧
    is_tracked s t2 = true ∧
    is_tracked s t3 = true ∧
    is_tracked s t4 = false ∧
    is_tracked s2 t5 =
      (s2.WHITELISTED_MODELS.isNone && s2.WHITELISTED_APPS.isNone) := by
  refine ⟨?_, ?_, ?_, ?_, ?_, ?_⟩
  · rcases h0 with h | h <;> simp [is_tracked, h]
  · simp [is_tracked, h1]
  · simp [is_tracked, h2a, h2b, h2c, h2d]
  · simp [is_tracked, h3a, h3b, h3c, h3d]
  · rcases Option.isSome_iff_exists.mp h4g with ⟨wa, hwa⟩
    rw [hwa] at h4f
    simp only [Option.getD_some] at h4f
    simp [is_tracked, h4a, h4b, h4c, h4d, h4e, h4f, hwa]
  · simp [is_tracked, h5a, h5b, h5c, h5d, h5e, h5f]

/-- Settings used to instantiate the precedence scenario. -/
def exSettings : TsunamiSettings :=
  { BLACKLISTED_APPS := ["nsbl"]
    WHITELISTED_APPS := some ["nswl"]
    BLACKLISTED_MODELS := ["shop.Bad"]
    WHITELISTED_MODELS := some ["shop.Good", "nsbl.Gem"] }

/-- Settings with no whitelist configured, for the untouched-type case. -/
def exSettingsNoWl : TsunamiSettings :=
  { BLACKLISTED_APPS := []
    WHITELISTED_APPS := none
    BLACKLISTED_MODELS := []
    WHITELISTED_MODELS := none }

/-- Witness for C3 at concrete settings and model types. -/
theorem C3_is_tracked_precedence_witness :
    is_tracked exSettings ⟨"admin", "admin.LogEntry"⟩ = false ∧
    is_tracked exSettings ⟨"shop", "shop.Bad"⟩ = false ∧
    is_tracked exSettings ⟨"shop", "shop.Good"⟩ = true ∧
    is_tracked exSettings ⟨"nsbl", "nsbl.Gem"⟩ = true ∧
    is_tracked exSettings ⟨"plain", "plain.Thing"⟩ = false ∧
    is_tracked exSettingsNoWl ⟨"plain", "plain.Thing"⟩ =
      (exSettingsNoWl.WHITELISTED_MODELS.isNone &&
        exSettingsNoWl.WHITELISTED_APPS.isNone) :=
  C3_is_tracked_precedence exSettings
    ⟨"admin", "admin.LogEntry"⟩ ⟨"shop", "shop.Bad"⟩ ⟨"shop", "shop.Good"⟩
    ⟨"nsbl", "nsbl.Gem"⟩ ⟨"plain", "plain.Thing"⟩
    exSettingsNoWl ⟨"plain", "plain.Thing"⟩
    (Or.inl (by decide)) (by decide) (by decide) (by decide) (by decide)
    (by decide) (by decide) (by decide) (by decide) (by decide) (by decide)
    (by decide) (by decide) (by decide) (by decide) (by decide) (by decide)
    (by decide)
    (by decide) (by decide) (by decide) (by decide) (by decide) (by decide)

/-! ## Signals and mute/suspend control (src/tsunami/tracking.py) -/

/-- The four Django signals the tracker connects receivers to. -/
inductive Sig where
  | sig_post_init : Sig
  | sig_post_save : Sig
  | sig_m2m_changed : Sig
  | sig_post_delete : Sig
deriving DecidableEq

/-- Value of the `_mute_signals` attribute set on a model class:
Python `False` (`off`, also the `getattr` default), `True` (`all`), or a
list of signals (`only`). -/
inductive MuteFlag where
  | off : MuteFlag
  | all : MuteFlag
  | only : List Sig → MuteFlag
deriving DecidableEq

/-- The thread-local `_State` of tracking.py: current user and the
`suspended` flag.  Its `__init__` sets `user = None`, `suspended = False`. -/
structure TrackingState where
  user : Option Nat
  suspended : Bool
deriving DecidableEq

/-- The initial thread-local state. -/
def initState : TrackingState := { user := none, suspended := false }

/-- Entering the `suspend()` context manager: `state.suspended = True`. -/
def suspend_enter (s : TrackingState) : TrackingState :=
  { s with suspended := true }

/-- Leaving the `suspend()` context manager (its `finally` block):
`state.suspended = False`, unconditionally. -/
def suspend_exit (s : TrackingState) : TrackingState :=
  { s with suspended := false }

/-- Entering `mute_signals_for(instance, sigs)`: the `_mute_signals`
attribute is overwritten with `sigs` (the prior value is not saved). -/
def mute_enter (_prior : MuteFlag) (sigs : MuteFlag) : MuteFlag := sigs

/-- Leaving `mute_signals_for` (its `finally` block): the attribute is set
to `False`, unconditionally. -/
def mute_exit (_attr : MuteFlag) : MuteFlag := MuteFlag.off

/-- Claim C5 counterexample: if the `_mute_signals` flag was `True` (mute all)
before a `mute_signals_for` scope was entered, then after the scope exits
the flag is `False`, not the prior value `True`. -/
theorem C5_mute_signals_for_not_restored :
    mute_exit (mute_enter MuteFlag.all (MuteFlag.only [Sig.sig_post_save]))
      ≠ MuteFlag.all := by decide

/-- Claim C5 amended: after a `mute_signals_for` scope exits, the
`_mute_signals` flag is always `False` (unmuted), for every prior value
and every requested signal set — it is reset, not restored. -/
theorem C5_mute_signals_for_reset (prior sigs : MuteFlag) :
    mute_exit (mute_enter prior sigs) = MuteFlag.off := rfl

/-! ## Serialization and diffing (src/tsunami/tracking.py) -/

/-- A serialized snapshot: the `fields` dict produced by
`_instance_as_dict`, as an association list in field order. -/
abbrev Snapshot := List (String × Int)

/-- Dict lookup `d[f]` / `f in d` on a snapshot: the first entry with the
given field name, if any. -/
def lookupField (l : Snapshot) (f : String) : Option Int :=
  (l.find? (fun p => p.1 == f)).map Prod.snd

/-- One entry of `instance._meta.get_fields()`, with the attributes the
tracker consults.  `related_model` and `through` identify the other model
and the through model of a many-to-many field (`0` when not applicable). -/
structure FieldMeta where
  name : String
  concrete : Bool
  many_to_many : Bool
  related_model : Nat
  through : Nat
deriving DecidableEq

/-- A model instance as seen by the receivers: its `_meta.label_lower`,
its `_meta.get_fields()`, and the serialized value of each field. -/
structure ModelInstance where
  label : String
  fields_meta : List FieldMeta
  value : String → Int

/-- Embedding of `_instance_as_dict(instance, fields)`: serialize the
given fields (default: all concrete non-many-to-many fields) to a dict of
field name to value.  (The muting of decorated signals around the
serializer is modelled separately by `signal_dispatch` below.) -/
def instance_as_dict (inst : ModelInstance) (fields : Option (List String)) :
    Snapshot :=
  let fs := fields.getD
    ((inst.fields_meta.filter (fun f => f.concrete && !f.many_to_many)).map
      FieldMeta.name)
  fs.map (fun n => (n, inst.value n))

/-- The dict comprehension at the heart of `_instance_diff`: keep each
field of the current state that is absent from the previous state or whose
value differs. -/
def diff_fields (state previous : Snapshot) : Snapshot :=
  state.filter (fun p => lookupField previous p.1 != some p.2)

/-- Embedding of `_instance_diff(instance, created)`.  `cached` is the
`_tsunami_state` attribute if present; `getattr(instance,
'_tsunami_state', {})` is its `getD []`. -/
def instance_diff (inst : ModelInstance) (cached : Option Snapshot)
    (created : Bool) : Snapshot :=
  let state := instance_as_dict inst none
  if created then state
  else diff_fields state (cached.getD [])

/-- An `Event` row as created by the receivers: its `event_type` and
`data` (the target and user are orthogonal to the claims). -/
structure EventRec where
  event_type : String
  data : Snapshot
deriving DecidableEq

/-- Embedding of `_event_type(instance, diff, default)`: a
`get_event_type` hook (if any) may override the default
`label.default` type; a `None` or empty (falsy) result falls back to the
default. -/
def event_type_of (custom : Snapshot → Option String) (label dflt : String)
    (diff : Snapshot) : String :=
  match custom diff with
  | some s => if s.isEmpty then label ++ "." ++ dflt else s
  | none => label ++ "." ++ dflt

/-! ## Signal receivers (src/tsunami/tracking.py) -/

/-- Embedding of `post_save_receiver`: drop when suspended or untracked,
compute the diff, and create an event only when the diff is non-empty.
`susp` is `state.suspended`, `tracked` the value of
`IS_TRACKED_PREDICATE(sender)`, `custom` the instance's `get_event_type`
hook, `cached` its `_tsunami_state`. -/
def post_save_receiver (susp tracked created : Bool)
    (custom : Snapshot → Option String) (inst : ModelInstance)
    (cached : Option Snapshot) : Option EventRec :=
  if susp then none
  else if !tracked then none
  else
    let diff := instance_diff inst cached created
    if diff.isEmpty then none
    else some ⟨event_type_of custom inst.label
                (if created then "created" else "updated") diff, diff⟩

/-- Embedding of `post_delete_receiver`: drop when suspended or untracked,
otherwise record a `<label>.deleted` event whose data is the serialization
of the instance as it currently is in memory (`_instance_as_dict`). -/
def post_delete_receiver (susp tracked : Bool) (inst : ModelInstance) :
    Option EventRec :=
  if susp then none
  else if !tracked then none
  else some ⟨inst.label ++ ".deleted", instance_as_dict inst none⟩

/-- Modelled from the spec: the claimed data of a deleted event — "the
last cached full snapshot of that entity ... empty if no snapshot was ever
cached", i.e. the `_tsunami_state` attribute, defaulting to empty. -/
def post_delete_data_spec (cached : Option Snapshot) : Snapshot :=
  cached.getD []

/-- Embedding of `post_init_receiver`: when the sender is tracked, cache
the serialized state on the instance as `_tsunami_state`; `serialize_ok`
models whether serialization succeeds (it raises `ValueError` for new
instances, in which case nothing is cached).  The result is the cached
snapshot, `none` when nothing was cached. -/
def post_init_receiver (tracked serialize_ok : Bool) (inst : ModelInstance) :
    Option Snapshot :=
  if !tracked then none
  else if serialize_ok then some (instance_as_dict inst none) else none

/-- Python `action.startswith("post_")`, on the character list of the
action string. -/
def starts_with_post (action : String) : Bool :=
  action.data.take 5 == "post_".data

/-- Embedding of `m2m_changed_receiver`: drop when suspended, when the
action is not a `post_`-prefixed state, on the reverse side, or when
untracked; find the forward many-to-many field whose related model and
through model match; record an event whose data is the serialization of
exactly that one field. -/
def m2m_changed_receiver (susp : Bool) (action : String) (rev : Bool)
    (tracked : Bool) (sender model : Nat)
    (custom : Snapshot → Option String) (inst : ModelInstance) :
    Option EventRec :=
  if susp then none
  else if !(starts_with_post action) then none
  else if rev then none
  else if !tracked then none
  else
    match (inst.fields_meta.find? (fun f =>
        f.many_to_many && f.related_model == model && f.through == sender)).map
        FieldMeta.name with
    | none => none
    | some fname =>
      let diff := instance_as_dict inst (some [fname])
      some ⟨event_type_of custom inst.label "updated" diff, diff⟩

/-- Embedding of the `mutable_signal_receiver` decorator: read the
`_mute_signals` attribute of the instance; skip the wrapped receiver when
it is `True`, or a list containing this signal; otherwise run it.  `none`
means the receiver body did not run. -/
def mutable_signal_receiver {α β : Type} (func : α → β) (sig : Sig)
    (mute : MuteFlag) (x : α) : Option β :=
  match mute with
  | MuteFlag.all => none
  | MuteFlag.only ms => if sig ∈ ms then none else some (func x)
  | MuteFlag.off => some (func x)

/-- Dispatch of a connected receiver: decorated receivers go through
`mutable_signal_receiver`, undecorated ones run unconditionally. -/
def signal_dispatch {α β : Type} (decorated : Bool) (func : α → β)
    (sig : Sig) (mute : MuteFlag) (x : α) : Option β :=
  if decorated then mutable_signal_receiver func sig mute x else some (func x)

/-- In the source, `post_init_receiver` carries `@mutable_signal_receiver`. -/
def post_init_is_decorated : Bool := true

/-- In the source, `post_save_receiver` is not decorated. -/
def post_save_is_decorated : Bool := false

/-- In the source, `m2m_changed_receiver` carries `@mutable_signal_receiver`. -/
def m2m_changed_is_decorated : Bool := true

/-- In the source, `post_delete_receiver` is not decorated. -/
def post_delete_is_decorated : Bool := false

/-- A concrete tracked instance with one concrete field `a` of value 1. -/
def exInst : ModelInstance :=
  { label := "shop.widget"
    fields_meta := [⟨"a", true, false, 0, 0⟩]
    value := fun _ => 1 }

/-- Diffing against an absent previous state keeps every field of the
current state: the filter predicate of `diff_fields` is true everywhere
when the previous dict is empty. -/
theorem diff_fields_empty_previous (l : Snapshot) : diff_fields l [] = l := by
  induction l with
  | nil => rfl
  | cons hd tl ih =>
    have hp : (lookupField [] hd.1 != some hd.2) = true := rfl
    rw [diff_fields] at ih ⊢
    rw [List.filter_cons, hp, if_pos rfl, ih]

/-- Claim C2 counterexample: for an instance with one field and no cached
previous state, the update diff (`created = False`) is the full current
state, not the empty mapping the claim asserts. -/
theorem C2_no_cache_diff_counterexample :
    instance_diff exInst none false = [("a", 1)] ∧
    ([("a", (1 : Int))] : Snapshot) ≠ [] := by decide

/-- Claim C2 amended: when no previous-state snapshot is cached, the update
diff does not raise and equals the full current snapshot — every field is
included (the previous state is treated as the empty dict), rather than
none. -/
theorem C2_no_cache_diff_is_full_state (inst : ModelInstance) :
    instance_diff inst none false = instance_as_dict inst none := by
  show diff_fields (instance_as_dict inst none) [] = instance_as_dict inst none
  exact diff_fields_empty_previous _

/-- Claim C4: FALSE of the code.  The `suspend()` context manager clears
`state.suspended` unconditionally on exit, so after an inner suspend scope
exits while the outer one is still active the flag is already `false` —
and a save performed at that point does record an event (here a non-empty
diff under an exited inner scope yields an event). -/
theorem C4_nested_suspend_broken :
    (suspend_exit (suspend_enter (suspend_enter initState))).suspended
      = false ∧
    (post_save_receiver
        (suspend_exit (suspend_enter (suspend_enter initState))).suspended
        true false (fun _ => none) exInst (some [])).isSome = true := by
  decide

/-- Claim C6 counterexample: for an instance whose snapshot was never cached
(`_tsunami_state` absent), the deleted event's data is the serialization
of the current in-memory instance — here `[("a", 1)]` — and not the empty
mapping that the claim derives from the absent cached snapshot. -/
theorem C6_delete_data_counterexample :
    (post_delete_receiver false true exInst).map EventRec.data
      = some [("a", 1)] ∧
    post_delete_data_spec none = [] ∧
    ([("a", (1 : Int))] : Snapshot) ≠ post_delete_data_spec none := by decide

/-- Claim C6 amended: whenever `post_delete_receiver` records an event, the
event's data is the instance's current in-memory serialization
(`_instance_as_dict(instance)`), regardless of any cached snapshot, and
its type is `<label>.deleted`; no error is raised either way. -/
theorem C6_delete_data_is_current_state (susp tracked : Bool)
    (inst : ModelInstance) (e : EventRec)
    (h : post_delete_receiver susp tracked inst = some e) :
    e.data = instance_as_dict inst none ∧
    e.event_type = inst.label ++ ".deleted" := by
  cases susp with
  | true => simp [post_delete_receiver] at h
  | false =>
    cases tracked with
    | false => simp [post_delete_receiver] at h
    | true =>
      simp only [post_delete_receiver, Bool.not_true, if_neg] at h
      simp only [Bool.false_eq_true, if_false, Option.some.injEq] at h
      rw [← h]
      exact ⟨rfl, rfl⟩

/-- Witness for C6 amended: the deletion of `exInst` with no suspension. -/
theorem C6_delete_data_is_current_state_witness :
    (⟨"shop.widget.deleted", [("a", 1)]⟩ : EventRec).data
      = instance_as_dict exInst none ∧
    (⟨"shop.widget.deleted", [("a", 1)]⟩ : EventRec).event_type
      = exInst.label ++ ".deleted" :=
  C6_delete_data_is_current_state false true exInst
    ⟨"shop.widget.deleted", [("a", 1)]⟩ (by decide)

/-- A concrete instance with one many-to-many field `tags` relating model
7 through model 3, whose serialized value is 5. -/
def m2mInst : ModelInstance :=
  { label := "shop.widget"
    fields_meta := [⟨"tags", false, true, 7, 3⟩]
    value := fun _ => 5 }

/-- Claim C7 counterexample: a completed *clear* notification (`post_clear`) —
which is neither a completed add nor a completed remove — also produces an
event, because the receiver accepts every `post_`-prefixed action. -/
theorem C7_post_clear_fires_counterexample :
    m2m_changed_receiver false "post_clear" false true 3 7 (fun _ => none)
        m2mInst
      = some ⟨"shop.widget.updated", [("tags", 5)]⟩ := by decide

/-- Claim C7 amended: a multi-valued relationship change produces an event only
for completed (`post_`-prefixed) notifications — add, remove, or clear —
on the forward side of the relationship (pre-change notifications and the
reverse side produce none, as do suspension and untracked senders), and
the event's data is the serialized current value of exactly the one
matched relationship field. -/
theorem C7_m2m_post_forward_single_field (susp : Bool) (action : String)
    (rev tracked : Bool) (sender model : Nat)
    (custom : Snapshot → Option String) (inst : ModelInstance) :
    (starts_with_post action = false →
      m2m_changed_receiver susp action rev tracked sender model custom inst
        = none) ∧
    (rev = true →
      m2m_changed_receiver susp action rev tracked sender model custom inst
        = none) ∧
    (∀ e : EventRec,
      m2m_changed_receiver susp action rev tracked sender model custom inst
          = some e →
      susp = false ∧ starts_with_post action = true ∧ rev = false ∧
      tracked = true ∧
      ∃ f, inst.fields_meta.find? (fun fm =>
          fm.many_to_many && fm.related_model == model && fm.through == sender)
          = some f ∧
        e.data = [(f.name, inst.value f.name)]) := by
  refine ⟨?_, ?_, ?_⟩
  · intro h
    simp [m2m_changed_receiver, h]
  · intro h
    simp [m2m_changed_receiver, h]
  · intro e h
    cases susp with
    | true => simp [m2m_changed_receiver] at h
    | false =>
      cases ha : starts_with_post action with
      | false => simp [m2m_changed_receiver, ha] at h
      | true =>
        cases rev with
        | true => simp [m2m_changed_receiver, ha] at h
        | false =>
          cases tracked with
          | false => simp [m2m_changed_receiver, ha] at h
          | true =>
            refine ⟨rfl, rfl, rfl, rfl, ?_⟩
            simp only [m2m_changed_receiver, ha, Bool.not_true,
              Bool.not_false, if_true, if_false, Bool.false_eq_true,
              Bool.true_eq_false, ite_true, ite_false] at h
            cases hf : inst.fields_meta.find? (fun fm =>
                fm.many_to_many && fm.related_model == model &&
                  fm.through == sender) with
            | none => rw [hf] at h; simp at h
            | some f =>
              rw [hf] at h
              simp only [Option.map_some', Option.some.injEq] at h
              refine ⟨f, rfl, ?_⟩
              rw [← h]
              rfl

/-- Witness for C7 amended: a pre-change action yields no event, the
reverse side yields no event, and a completed add on the forward side of
`m2mInst` yields the single-field payload. -/
theorem C7_m2m_post_forward_single_field_witness :
    m2m_changed_receiver false "pre_add" false true 3 7 (fun _ => none)
        m2mInst = none ∧
    m2m_changed_receiver false "post_add" true true 3 7 (fun _ => none)
        m2mInst = none ∧
    (false = false ∧ starts_with_post "post_add" = true ∧
      false = false ∧ true = true ∧
      ∃ f, m2mInst.fields_meta.find? (fun fm =>
          fm.many_to_many && fm.related_model == 7 && fm.through == 3)
          = some f ∧
        (⟨"shop.widget.updated", [("tags", 5)]⟩ : EventRec).data
          = [(f.name, m2mInst.value f.name)]) := by
  have h1 := C7_m2m_post_forward_single_field false "pre_add" false true 3 7
    (fun _ => none) m2mInst
  have h2 := C7_m2m_post_forward_single_field false "post_add" true true 3 7
    (fun _ => none) m2mInst
  have h3 := C7_m2m_post_forward_single_field false "post_add" false true 3 7
    (fun _ => none) m2mInst
  exact ⟨h1.1 (by decide), h2.2.1 rfl,
    h3.2.2 ⟨"shop.widget.updated", [("tags", 5)]⟩ (by decide)⟩

/-- Claim C10: the mute-signals attribute cannot influence save or delete
tracking.  For any two values of the `_mute_signals` flag, dispatching the
save receiver (resp. the delete receiver) gives identical results —
they are connected undecorated — while the decorated load (`post_init`)
and relationship-change (`m2m_changed`) receivers are skipped entirely
when the flag mutes all signals. -/
theorem C10_mute_flag_save_delete_noninterference
    (m1 m2 : MuteFlag) (susp tracked created serialize_ok : Bool)
    (custom : Snapshot → Option String) (inst : ModelInstance)
    (cached : Option Snapshot) (action : String) (rev : Bool)
    (sender model : Nat) :
    signal_dispatch post_save_is_decorated
        (fun i => post_save_receiver susp tracked created custom i cached)
        Sig.sig_post_save m1 inst
      = signal_dispatch post_save_is_decorated
        (fun i => post_save_receiver susp tracked created custom i cached)
        Sig.sig_post_save m2 inst ∧
    signal_dispatch post_delete_is_decorated
        (fun i => post_delete_receiver susp tracked i)
        Sig.sig_post_delete m1 inst
      = signal_dispatch post_delete_is_decorated
        (fun i => post_delete_receiver susp tracked i)
        Sig.sig_post_delete m2 inst ∧
    signal_dispatch post_init_is_decorated
        (fun i => post_init_receiver tracked serialize_ok i)
        Sig.sig_post_init MuteFlag.all inst = none ∧
    signal_dispatch m2m_changed_is_decorated
        (fun i =>
          m2m_changed_receiver susp action rev tracked sender model custom i)
        Sig.sig_m2m_changed MuteFlag.all inst = none :=
  ⟨rfl, rfl, rfl, rfl⟩

/-! ## Event default ordering (src/tsunami/models.py, Event.Meta) -/

/-- The sort-relevant columns of an `Event` row: its `created_at`
timestamp and its `id` (UUIDs are string-comparable; both rendered as
naturals). -/
structure EventSortKey where
  created_at : Nat
  id : Nat
deriving DecidableEq

/-- The declared default ordering of the `Event` model:
`ordering = ('-created_at', )`. -/
def ordering_decl : List String := ["-created_at"]

/-- Modelled from the spec: the ordering pair the claim asserts,
`createdAt` descending with `id` ascending as tie-break. -/
def spec_ordering_decl : List String := ["-created_at", "id"]

/-- Comparison by one ordering column, a `-` prefix meaning descending. -/
def field_compare (a b : EventSortKey) : String → Ordering
  | "created_at" => compare a.created_at b.created_at
  | "-created_at" => compare b.created_at a.created_at
  | "id" => compare a.id b.id
  | "-id" => compare b.id a.id
  | _ => Ordering.eq

/-- Lexicographic comparison induced by an ordering declaration: the first
column dominates, later columns break ties. -/
def ordering_compare (decl : List String) (a b : EventSortKey) : Ordering :=
  decl.foldr (fun fld acc => (field_compare a b fld).then acc) Ordering.eq

/-- Claim C8 counterexample: the declared ordering is not the claimed pair —
two events sharing a `created_at` compare as equal under the declared
ordering (no tie-break is declared), while the spec's pair ordering
distinguishes them by `id`. -/
theorem C8_ordering_counterexample :
    ordering_decl ≠ spec_ordering_decl ∧
    ordering_compare ordering_decl ⟨5, 1⟩ ⟨5, 2⟩ = Ordering.eq ∧
    ordering_compare spec_ordering_decl ⟨5, 1⟩ ⟨5, 2⟩ = Ordering.lt := by
  decide

/-- Claim C8 amended: the declared default ordering of the `Event` collection is
`createdAt` descending alone — the induced comparison is exactly the
reversed comparison of `created_at`, so events with equal timestamps are
not ordered by `id`. -/
theorem C8_ordering_created_at_desc_only (a b : EventSortKey) :
    ordering_compare ordering_decl a b = compare b.created_at a.created_at := by
  show (field_compare a b "-created_at").then Ordering.eq
      = compare b.created_at a.created_at
  cases h : compare b.created_at a.created_at <;>
    simp [field_compare, Ordering.then, h]

/-! ## The diff round-trip (C9) -/

/-- The field names of a snapshot, in order. -/
def keys (l : Snapshot) : List String := l.map Prod.fst

/-- Applying an update event's data field-by-field onto the pre-state
snapshot: every field keeps its previous value unless the diff carries a
value for it. -/
def applyDiff (previous diff : Snapshot) : Snapshot :=
  previous.map (fun p => (p.1, (lookupField diff p.1).getD p.2))

theorem lookupField_cons (k : String) (v : Int) (tl : Snapshot)
    (f : String) :
    lookupField ((k, v) :: tl) f
      = if k == f then some v else lookupField tl f := by
  by_cases h : k = f
  · subst h
    simp [lookupField, List.find?]
  · have hb : (k == f) = false := beq_eq_false_iff_ne.mpr h
    simp [lookupField, List.find?, hb]

theorem mem_keys_iff (l : Snapshot) (f : String) :
    f ∈ keys l ↔ (lookupField l f).isSome := by
  induction l with
  | nil => simp [keys, lookupField]
  | cons hd tl ih =>
    obtain ⟨k, v⟩ := hd
    rw [lookupField_cons]
    by_cases h : k = f
    · subst h
      simp [keys]
    · have hb : (k == f) = false := beq_eq_false_iff_ne.mpr h
      simp only [hb, Bool.false_eq_true, if_false, keys, List.map_cons,
        List.mem_cons]
      rw [← keys]
      constructor
      · rintro (rfl | hm)
        · exact absurd rfl h
        · exact ih.mp hm
      · intro hs
        exact Or.inr (ih.mpr hs)

theorem lookupField_eq_none (l : Snapshot) (f : String) :
    lookupField l f = none ↔ f ∉ keys l := by
  rw [mem_keys_iff, Option.isSome_iff_ne_none]
  exact ⟨fun h hn => hn h, not_not.mp⟩

theorem lookup_applyDiff (prev d : Snapshot) (f : String) :
    lookupField (applyDiff prev d) f
      = (lookupField prev f).map (fun v => (lookupField d f).getD v) := by
  induction prev with
  | nil => rfl
  | cons hd tl ih =>
    obtain ⟨k, v⟩ := hd
    show lookupField ((k, (lookupField d k).getD v) :: applyDiff tl d) f = _
    rw [lookupField_cons, lookupField_cons]
    by_cases h : k = f
    · subst h
      simp
    · have hb : (k == f) = false := beq_eq_false_iff_ne.mpr h
      simp [hb, ih]

theorem lookup_diff_fields (state prev : Snapshot) (f : String)
    (hnd : (keys state).Nodup) :
    lookupField (diff_fields state prev) f
      = match lookupField state f with
        | none => none
        | some v => if lookupField prev f = some v then none else some v := by
  induction state with
  | nil => rfl
  | cons hd tl ih =>
    obtain ⟨k, v⟩ := hd
    have hnd2 : (k :: keys tl).Nodup := hnd
    have hk : k ∉ keys tl := (List.nodup_cons.mp hnd2).1
    have hnd' : (keys tl).Nodup := (List.nodup_cons.mp hnd2).2
    have hfc : diff_fields ((k, v) :: tl) prev
        = if (lookupField prev k != some v) then (k, v) :: diff_fields tl prev
          else diff_fields tl prev := by
      simp only [diff_fields, List.filter_cons]
    by_cases hkf : k = f
    · subst hkf
      have hlk : lookupField ((k, v) :: tl) k = some v := by
        rw [lookupField_cons]
        simp
      rw [hlk]
      by_cases hc : lookupField prev k = some v
      · have hb : (lookupField prev k != some v) = false := by
          rw [hc]
          simp
        rw [hfc]
        simp only [hb, Bool.false_eq_true, if_false]
        rw [ih hnd', (lookupField_eq_none tl k).mpr hk]
        simp [hc]
      · have hb : (lookupField prev k != some v) = true := by
          simp [bne_iff_ne, hc]
        rw [hfc, if_pos hb, lookupField_cons]
        simp [hc]
    · have hb : (k == f) = false := beq_eq_false_iff_ne.mpr hkf
      have hlf : lookupField ((k, v) :: tl) f = lookupField tl f := by
        rw [lookupField_cons, hb]
        simp
      rw [hlf, ← ih hnd', hfc]
      by_cases hc : (lookupField prev k != some v) = true
      · rw [if_pos hc, lookupField_cons, hb]
        simp
      · rw [if_neg hc]

/-- Claim C9: round-trip.  For an update whose current snapshot and cached
previous snapshot have the same set of field names (and duplicate-free
names, as dict-derived snapshots are), applying the event's data
(`diff_fields`, the diff that `post_save_receiver` stores) field-by-field
onto the previous snapshot reproduces the current snapshot, and the data
holds exactly the changed fields: its lookup is the current value
precisely where current and previous values differ, and nothing
elsewhere. -/
theorem C9_diff_roundtrip (state previous : Snapshot)
    (hnd : (keys state).Nodup)
    (hsub1 : ∀ f ∈ keys state, f ∈ keys previous)
    (hsub2 : ∀ f ∈ keys previous, f ∈ keys state) :
    (∀ f, lookupField (applyDiff previous (diff_fields state previous)) f
        = lookupField state f) ∧
    (∀ f, lookupField (diff_fields state previous) f
        = if lookupField state f = lookupField previous f then none
          else lookupField state f) := by
  constructor
  · intro f
    rw [lookup_applyDiff]
    cases hp : lookupField previous f with
    | none =>
      have hfp : f ∉ keys previous := (lookupField_eq_none previous f).mp hp
      have hfs : f ∉ keys state := fun hmem => hfp (hsub1 f hmem)
      have hs : lookupField state f = none :=
        (lookupField_eq_none state f).mpr hfs
      simp [hs]
    | some pv =>
      have hfp : f ∈ keys previous := by
        rw [mem_keys_iff, hp]
        rfl
      have hfs : f ∈ keys state := hsub2 f hfp
      obtain ⟨v, hv⟩ :=
        Option.isSome_iff_exists.mp ((mem_keys_iff state f).mp hfs)
      rw [lookup_diff_fields state previous f hnd, hv, hp]
      by_cases hvv : pv = v
      · subst hvv
        simp
      · simp [hvv]
  · intro f
    rw [lookup_diff_fields state previous f hnd]
    cases hs : lookupField state f with
    | none =>
      have hfs : f ∉ keys state := (lookupField_eq_none state f).mp hs
      have hfp : f ∉ keys previous := fun hmem => hfs (hsub2 f hmem)
      have hp : lookupField previous f = none :=
        (lookupField_eq_none previous f).mpr hfp
      simp [hp]
    | some v =>
      cases hp : lookupField previous f with
      | none => simp
      | some pv =>
        by_cases hvv : pv = v
        · subst hvv
          simp
        · have h2 : v ≠ pv := fun h => hvv h.symm
          simp [hvv, h2]

/-- Pre-state snapshot of the round-trip witness. -/
def prevSnap : Snapshot := [("a", 1), ("b", 3)]

/-- Post-state snapshot of the round-trip witness: `b` changed. -/
def currSnap : Snapshot := [("a", 1), ("b", 2)]

/-- Witness for C9 at concrete snapshots: the changed field `b` round-trips
and the unchanged field `a` is absent from the data. -/
theorem C9_diff_roundtrip_witness :
    lookupField (applyDiff prevSnap (diff_fields currSnap prevSnap)) "b"
      = lookupField currSnap "b" ∧
    lookupField (diff_fields currSnap prevSnap) "a"
      = (if lookupField currSnap "a" = lookupField prevSnap "a" then none
         else lookupField currSnap "a") := by
  have h := C9_diff_roundtrip currSnap prevSnap (by decide) (by decide)
    (by decide)
  exact ⟨h.1 "b", h.2 "a"⟩

end Tsunami
